import Mathlib

/-!
Verification of `src/tutorials/ComSandboxDemo/SimpleCom/SimpleCom.c`, a
minimal in-process COM server written in plain C: a reference-counted
Calculator object, a static class factory, and the DLL entry points.

Shallow embedding choices:
* A GUID is a structure of its four fields, as in the Windows `GUID` struct;
  `IsEqualGUID` is decidable equality on it.
* An `HRESULT` is the `Nat` value of its unsigned 32-bit representation.
* The mutable state is a heap of Calculator cells: a list indexed by
  address, where `none` marks a freed cell.  `malloc` appends a fresh cell;
  `free` overwrites the cell with `none`.
* Dereferencing a freed or never-allocated address is undefined behaviour in
  the C source; the embedding returns `none` (of `Option`) on such paths.
* `malloc` failure is modelled by an explicit `allocOK : Bool` argument to
  `Factory_CreateInstance`.
* The C `int` and the `long count` field are 32-bit two's-complement
  integers; `Add` wraps its mathematical sum into that range via `wrap32`,
  and `InterlockedIncrement` / `InterlockedDecrement` on the count likewise
  wrap their results via `wrap32`.
* The class factory is a single static instance with no mutable field
  (`SimpleClassFactoryStruct` holds only the fixed vtable pointer), so its
  functions neither take nor change the heap, except where the heap is
  threaded through unchanged to make state preservation visible.
-/

namespace SimpleCom

/-- A 128-bit GUID, mirroring the four fields of the Windows `GUID` struct. -/
structure GUID where
  data1 : Nat
  data2 : Nat
  data3 : Nat
  data4 : List Nat
deriving DecidableEq, Repr

/-- `CLSID_SimpleCalculator` = {11111111-2222-3333-4444-555555555555}. -/
def CLSID_SimpleCalculator : GUID :=
  ⟨0x11111111, 0x2222, 0x3333, [0x44, 0x44, 0x55, 0x55, 0x55, 0x55, 0x55, 0x55]⟩

/-- `IID_ICalculator` = {E1234567-ABCD-1234-EF12-0123456789AB}. -/
def IID_ICalculator : GUID :=
  ⟨0xE1234567, 0xABCD, 0x1234, [0xEF, 0x12, 0x01, 0x23, 0x45, 0x67, 0x89, 0xAB]⟩

/-- `IID_IUnknown` = {00000000-0000-0000-C000-000000000046}, from the platform SDK. -/
def IID_IUnknown : GUID :=
  ⟨0, 0, 0, [0xC0, 0, 0, 0, 0, 0, 0, 0x46]⟩

/-- `IID_IClassFactory` = {00000001-0000-0000-C000-000000000046}, from the platform SDK. -/
def IID_IClassFactory : GUID :=
  ⟨1, 0, 0, [0xC0, 0, 0, 0, 0, 0, 0, 0x46]⟩

/-- `S_OK`: success. -/
def S_OK : Nat := 0

/-- `S_FALSE`: success status carrying a boolean "no". -/
def S_FALSE : Nat := 1

/-- `E_NOINTERFACE`: the requested capability is not supported. -/
def E_NOINTERFACE : Nat := 0x80004002

/-- `E_OUTOFMEMORY`: allocation failure. -/
def E_OUTOFMEMORY : Nat := 0x8007000E

/-- `CLASS_E_NOAGGREGATION`: aggregation is not supported. -/
def CLASS_E_NOAGGREGATION : Nat := 0x80040110

/-- `CLASS_E_CLASSNOTAVAILABLE`: the requested class is not served by this module. -/
def CLASS_E_CLASSNOTAVAILABLE : Nat := 0x80040111

/-- An `HRESULT` is a failure code iff its severity bit (bit 31) is set. -/
def isFailureHR (hr : Nat) : Bool := 2 ^ 31 ≤ hr

/-- Wrap a mathematical integer into the 32-bit two's-complement range
`[-2^31, 2^31)`, as a 32-bit `int` or `long` stores it. -/
def wrap32 (n : Int) : Int :=
  (n + 2 ^ 31) % 2 ^ 32 - 2 ^ 31

/-- A `SimpleCalculator` instance.  The C struct also carries the constant
vtable pointer `lpVtbl = &CalculatorVtbl`, which never varies and so is not a
field of the model; only the mutable `long count` (32-bit, mutated through
`wrap32`) is. -/
structure SimpleCalculator where
  count : Int
deriving DecidableEq, Repr

/-- The heap of Calculator cells: index = address, `none` = freed cell. -/
abbrev Heap := List (Option SimpleCalculator)

/-- Read the cell at address `p` (`none` if freed or never allocated). -/
def heapGet (h : Heap) (p : Nat) : Option SimpleCalculator :=
  (h.getD p none)

/-- Overwrite the cell at address `p`. -/
def heapSet (h : Heap) (p : Nat) (v : Option SimpleCalculator) : Heap :=
  h.set p v

/-- `malloc`: append a fresh cell, returning the new heap and its address. -/
def heapAlloc (h : Heap) (v : SimpleCalculator) : Heap × Nat :=
  (h ++ [some v], h.length)

/-- Number of live (allocated, not yet freed) Calculator instances. -/
def liveCount (h : Heap) : Nat :=
  h.countP Option.isSome

/-- `AddRef`: `InterlockedIncrement(&this->count)` on the 32-bit `long`
(wrapping at the type boundary), returning the new count.  `none` on a
dangling address (undefined behaviour in C). -/
def AddRef (h : Heap) (p : Nat) : Option (Heap × Int) :=
  match heapGet h p with
  | some o =>
      let c := wrap32 (o.count + 1)
      some (heapSet h p (some ⟨c⟩), c)
  | none => none

/-- `Release`: `InterlockedDecrement(&this->count)` on the 32-bit `long`
(wrapping at the type boundary); frees the instance when the result is zero;
returns the resulting count. -/
def Release (h : Heap) (p : Nat) : Option (Heap × Int) :=
  match heapGet h p with
  | some o =>
      let c := wrap32 (o.count - 1)
      if c = 0 then some (heapSet h p none, c)
      else some (heapSet h p (some ⟨c⟩), c)
  | none => none

/-- Result of the Calculator's `QueryInterface`: the heap afterwards, the
value written to `*ppv` (`some p` = the instance, `none` = NULL), and the
returned `HRESULT`. -/
structure QIResult where
  heap : Heap
  ppv : Option Nat
  hr : Nat
deriving DecidableEq, Repr

/-- `QueryInterface` on a Calculator at address `p`: for `IID_IUnknown` or
`IID_ICalculator`, write `this` to `*ppv`, call `AddRef`, return `S_OK`;
otherwise write NULL and return `E_NOINTERFACE`. -/
def QueryInterface (h : Heap) (p : Nat) (riid : GUID) : Option QIResult :=
  if riid = IID_IUnknown ∨ riid = IID_ICalculator then
    match AddRef h p with
    | some (h2, _) => some ⟨h2, some p, S_OK⟩
    | none => none
  else
    some ⟨h, none, E_NOINTERFACE⟩

/-- The Calculator's `Add` method: `return a + b;` on C `int`s (32-bit
two's complement, no overflow check). -/
def Add (a b : Int) : Int :=
  wrap32 (a + b)

/-- `GetInfo`: returns a fresh platform string with this constant content. -/
def GetInfo : String :=
  "Running the native C COM object"

/-- Result of the factory's `QueryInterface`: the (untouched) heap, the value
written to `*ppv` (`some ()` = the factory singleton, `none` = NULL), and the
`HRESULT`. -/
structure FactoryQIResult where
  heap : Heap
  ppv : Option Unit
  hr : Nat
deriving DecidableEq, Repr

/-- `Factory_QueryInterface`: for `IID_IUnknown` or `IID_IClassFactory`,
write the factory to `*ppv` and return `S_OK` (the source performs no
`AddRef` call here); otherwise write NULL and return `E_NOINTERFACE`.  The
heap is threaded through to make visible that no state changes. -/
def Factory_QueryInterface (h : Heap) (riid : GUID) : FactoryQIResult :=
  if riid = IID_IUnknown ∨ riid = IID_IClassFactory then ⟨h, some (), S_OK⟩
  else ⟨h, none, E_NOINTERFACE⟩

/-- `Factory_AddRef`: `return 2;` — a no-op on any state. -/
def Factory_AddRef : Nat := 2

/-- `Factory_Release`: `return 1;` — a no-op on any state, never frees. -/
def Factory_Release : Nat := 1

/-- Result of `Factory_CreateInstance`: the heap afterwards, the value
written to `*ppv` (`none` = output parameter never written, `some v` = the
value `v` written, itself NULL or an address), and the `HRESULT`. -/
structure CIResult where
  heap : Heap
  ppv : Option (Option Nat)
  hr : Nat
deriving DecidableEq, Repr

/-- `Factory_CreateInstance`: fail with `CLASS_E_NOAGGREGATION` if
`pUnkOuter` is non-null; fail with `E_OUTOFMEMORY` if `malloc` fails
(modelled by `allocOK = false`); otherwise allocate a Calculator with
`count = 1`, run `QueryInterface` for `riid`, release the initial reference,
and return the query's `HRESULT`. -/
def Factory_CreateInstance (h : Heap) (allocOK : Bool) (pUnkOuter : Option Unit)
    (riid : GUID) : Option CIResult :=
  if pUnkOuter.isSome then some ⟨h, none, CLASS_E_NOAGGREGATION⟩
  else if !allocOK then some ⟨h, none, E_OUTOFMEMORY⟩
  else
    let ap := heapAlloc h ⟨1⟩
    match QueryInterface ap.1 ap.2 riid with
    | none => none
    | some q =>
        match Release q.heap ap.2 with
        | none => none
        | some hc => some ⟨hc.1, some q.ppv, q.hr⟩

/-- `Factory_LockServer`: accepted but ignored, always `S_OK`. -/
def Factory_LockServer (fLock : Bool) : Nat := S_OK

/-- Result of `DllGetClassObject`: heap afterwards, the value written to
`*ppv` (`none` = output never written), and the `HRESULT`. -/
structure GCOResult where
  heap : Heap
  ppv : Option (Option Unit)
  hr : Nat
deriving DecidableEq, Repr

/-- `DllGetClassObject`: for `CLSID_SimpleCalculator`, delegate to the
factory's `QueryInterface`; otherwise `CLASS_E_CLASSNOTAVAILABLE` without
touching the output parameter or the heap. -/
def DllGetClassObject (h : Heap) (rclsid riid : GUID) : GCOResult :=
  if rclsid = CLSID_SimpleCalculator then
    let r := Factory_QueryInterface h riid
    ⟨r.heap, some r.ppv, r.hr⟩
  else ⟨h, none, CLASS_E_CLASSNOTAVAILABLE⟩

/-- `DllCanUnloadNow`: always `S_FALSE` (never unload). -/
def DllCanUnloadNow : Nat := S_FALSE

/-! ### Helper lemmas about the heap -/

theorem heapGet_append_length (h : Heap) (v : Option SimpleCalculator) :
    heapGet (h ++ [v]) h.length = v := by
  induction h with
  | nil => rfl
  | cons a t ih => simpa [heapGet, List.getD] using ih

theorem heapSet_append_length (h : Heap) (v w : Option SimpleCalculator) :
    heapSet (h ++ [v]) h.length w = h ++ [w] := by
  induction h with
  | nil => rfl
  | cons a t ih => simpa [heapSet] using ih

theorem liveCount_append_none (h : Heap) :
    liveCount (h ++ [none]) = liveCount h := by
  induction h with
  | nil => rfl
  | cons a t ih => simp only [liveCount, List.cons_append, List.countP_cons] at ih ⊢; omega

theorem qi_supported_eq (h : Heap) (p : Nat) (o : SimpleCalculator)
    (hp : heapGet h p = some o) (riid : GUID)
    (hs : riid = IID_IUnknown ∨ riid = IID_ICalculator) :
    QueryInterface h p riid =
      some ⟨heapSet h p (some ⟨wrap32 (o.count + 1)⟩), some p, S_OK⟩ := by
  unfold QueryInterface
  rw [if_pos hs]
  simp [AddRef, hp]

theorem qi_unsupported_eq (h : Heap) (p : Nat) (riid : GUID)
    (h1 : riid ≠ IID_IUnknown) (h2 : riid ≠ IID_ICalculator) :
    QueryInterface h p riid = some ⟨h, none, E_NOINTERFACE⟩ := by
  unfold QueryInterface
  rw [if_neg]
  rintro (hc | hc) <;> [exact h1 hc; exact h2 hc]

theorem release_append (h : Heap) (c : Int) :
    Release (h ++ [some ⟨c⟩]) h.length =
      some (if wrap32 (c - 1) = 0 then h ++ [none]
            else h ++ [some ⟨wrap32 (c - 1)⟩], wrap32 (c - 1)) := by
  unfold Release
  rw [heapGet_append_length]
  by_cases hc : wrap32 (c - 1) = 0 <;> simp [hc, heapSet_append_length]

theorem fci_supported_eq (h : Heap) (riid : GUID)
    (hs : riid = IID_IUnknown ∨ riid = IID_ICalculator) :
    Factory_CreateInstance h true none riid =
      some ⟨h ++ [some ⟨1⟩], some (some h.length), S_OK⟩ := by
  have hqi : QueryInterface (h ++ [some ⟨1⟩]) h.length riid =
      some ⟨h ++ [some ⟨2⟩], some h.length, S_OK⟩ := by
    rw [qi_supported_eq (h ++ [some ⟨1⟩]) h.length ⟨1⟩ (heapGet_append_length h _) riid hs,
      heapSet_append_length]
    norm_num [wrap32]
  norm_num [Factory_CreateInstance, heapAlloc, hqi, release_append, wrap32]

theorem fci_unsupported_eq (h : Heap) (riid : GUID)
    (h1 : riid ≠ IID_IUnknown) (h2 : riid ≠ IID_ICalculator) :
    Factory_CreateInstance h true none riid =
      some ⟨h ++ [none], some none, E_NOINTERFACE⟩ := by
  have hqi : QueryInterface (h ++ [some ⟨1⟩]) h.length riid =
      some ⟨h ++ [some ⟨1⟩], none, E_NOINTERFACE⟩ :=
    qi_unsupported_eq (h ++ [some ⟨1⟩]) h.length riid h1 h2
  norm_num [Factory_CreateInstance, heapAlloc, hqi, release_append, wrap32]

/-! ### Claim theorems -/

/-- C8: `Add` is the pure 32-bit sum: whenever the mathematical sum of `a`
and `b` fits in a C `int`, `Add a b = a + b`; in particular `Add 2 3 = 5`,
`Add (-1) 1 = 0`, `Add 0 0 = 0`. -/
theorem add_is_pure_sum (a b : Int) (hlo : -(2 ^ 31) ≤ a + b)
    (hhi : a + b ≤ 2 ^ 31 - 1) :
    Add a b = a + b ∧ Add 2 3 = 5 ∧ Add (-1) 1 = 0 ∧ Add 0 0 = 0 := by
  refine ⟨?_, by decide, by decide, by decide⟩
  unfold Add wrap32
  omega

/-- Witness for C8 at `a = 2`, `b = 3`. -/
theorem add_is_pure_sum_witness :
    Add 2 3 = 2 + 3 ∧ Add 2 3 = 5 ∧ Add (-1) 1 = 0 ∧ Add 0 0 = 0 :=
  add_is_pure_sum 2 3 (by decide) (by decide)

/-- C9: the class factory is a static singleton whose reference counting is a
no-op: retain always returns 2 and release always returns 1, both nonzero, so
the factory is never reclaimed. -/
theorem factory_refcount_noop :
    Factory_AddRef = 2 ∧ Factory_Release = 1 ∧
    0 < Factory_AddRef ∧ 0 < Factory_Release := by
  decide

/-- C6: `Factory_CreateInstance` with a non-null outer aggregate fails with
`CLASS_E_NOAGGREGATION`, writes nothing to the output parameter, and leaves
the heap unchanged (no allocation), for every capability identifier and
whether or not allocation could succeed. -/
theorem createInstance_aggregation_fails (h : Heap) (allocOK : Bool) (riid : GUID) :
    Factory_CreateInstance h allocOK (some ()) riid =
      some ⟨h, none, CLASS_E_NOAGGREGATION⟩ := by
  rfl

/-- C1: for every supported capability identifier, `Factory_CreateInstance`
with a null outer aggregate allocates a Calculator, queries it, releases the
initial reference, and hands the caller the sole remaining reference to an
instance whose count is 1; releasing that reference once reclaims the
instance (its heap cell becomes freed); if allocation fails, the call fails
with `E_OUTOFMEMORY` and changes nothing. -/
theorem createInstance_success (h : Heap) (riid : GUID)
    (hs : riid = IID_IUnknown ∨ riid = IID_ICalculator) :
    Factory_CreateInstance h true none riid =
      some ⟨h ++ [some ⟨1⟩], some (some h.length), S_OK⟩ ∧
    Release (h ++ [some ⟨1⟩]) h.length = some (h ++ [none], 0) ∧
    Factory_CreateInstance h false none riid = some ⟨h, none, E_OUTOFMEMORY⟩ :=
  ⟨fci_supported_eq h riid hs, by norm_num [release_append, wrap32], rfl⟩

/-- Witness for C1 at the empty heap and `riid = IID_ICalculator`. -/
theorem createInstance_success_witness :
    Factory_CreateInstance [] true none IID_ICalculator =
      some ⟨[some ⟨1⟩], some (some 0), S_OK⟩ ∧
    Release [some ⟨1⟩] 0 = some ([none], 0) ∧
    Factory_CreateInstance [] false none IID_ICalculator =
      some ⟨[], none, E_OUTOFMEMORY⟩ :=
  createInstance_success [] IID_ICalculator (Or.inr rfl)

/-- C3 counterexample: the claim says the factory's capability query
"increments the reference count as a side effect".  The source's
`Factory_QueryInterface` performs no retain at all: on the supported
identifier `IID_IUnknown` it returns a non-null reference and `S_OK` but
leaves the program's entire mutable state — hence every reference count —
unchanged (here on a heap holding one Calculator of count 5), so the claimed
increment does not happen. -/
theorem factory_qi_counterexample :
    ¬ ((Factory_QueryInterface [some ⟨5⟩] IID_IUnknown).ppv ≠ none ∧
       (Factory_QueryInterface [some ⟨5⟩] IID_IUnknown).hr = S_OK ∧
       (Factory_QueryInterface [some ⟨5⟩] IID_IUnknown).heap ≠ [some ⟨5⟩]) := by
  decide

/-- C3 amended: for each supported capability identifier of the factory
(`IID_IUnknown` or `IID_IClassFactory`), `Factory_QueryInterface` writes a
non-null factory reference to the output and returns `S_OK`, but performs no
retain and changes no reference count (the factory's own reference counting
is a constant no-op). -/
theorem factory_qi_supported (h : Heap) (riid : GUID)
    (hs : riid = IID_IUnknown ∨ riid = IID_IClassFactory) :
    Factory_QueryInterface h riid = ⟨h, some (), S_OK⟩ ∧ Factory_AddRef = 2 := by
  unfold Factory_QueryInterface
  rw [if_pos hs]
  exact ⟨rfl, rfl⟩

/-- Witness for the amended C3 at `riid = IID_IClassFactory`. -/
theorem factory_qi_supported_witness :
    Factory_QueryInterface [some ⟨5⟩] IID_IClassFactory =
      ⟨[some ⟨5⟩], some (), S_OK⟩ ∧ Factory_AddRef = 2 :=
  factory_qi_supported [some ⟨5⟩] IID_IClassFactory (Or.inr rfl)

/-- C4 counterexample: the claim says every failing call path returns one of
exactly three error codes (unsupported capability, aggregation, allocation
failure).  `DllGetClassObject` called with an unknown class identifier fails
with a fourth code, `CLASS_E_CLASSNOTAVAILABLE`, which has the failure
severity bit set and differs from all three. -/
theorem three_error_codes_counterexample :
    (DllGetClassObject [] IID_IUnknown IID_IUnknown).hr = CLASS_E_CLASSNOTAVAILABLE ∧
    isFailureHR (DllGetClassObject [] IID_IUnknown IID_IUnknown).hr = true ∧
    (DllGetClassObject [] IID_IUnknown IID_IUnknown).hr ≠ E_NOINTERFACE ∧
    (DllGetClassObject [] IID_IUnknown IID_IUnknown).hr ≠ CLASS_E_NOAGGREGATION ∧
    (DllGetClassObject [] IID_IUnknown IID_IUnknown).hr ≠ E_OUTOFMEMORY := by
  decide

/-- C4 amended: every status-returning operation either reports success
(`S_OK`, or the success status `S_FALSE` for `DllCanUnloadNow`) or fails with
one of exactly four error conditions — unsupported capability query
(`E_NOINTERFACE`), attempted aggregation (`CLASS_E_NOAGGREGATION`),
allocation failure (`E_OUTOFMEMORY`), and unknown class identifier
(`CLASS_E_CLASSNOTAVAILABLE`) — and no call path returns any other failure
code. -/
theorem four_error_codes (h : Heap) (p : Nat) (o : SimpleCalculator)
    (hp : heapGet h p = some o) (riid rclsid : GUID) (allocOK : Bool)
    (pOut : Option Unit) (fLock : Bool) :
    (∃ r, QueryInterface h p riid = some r ∧
       (r.hr = S_OK ∨ r.hr = E_NOINTERFACE)) ∧
    ((Factory_QueryInterface h riid).hr = S_OK ∨
     (Factory_QueryInterface h riid).hr = E_NOINTERFACE) ∧
    (∃ r, Factory_CreateInstance h allocOK pOut riid = some r ∧
       (r.hr = S_OK ∨ r.hr = E_NOINTERFACE ∨
        r.hr = CLASS_E_NOAGGREGATION ∨ r.hr = E_OUTOFMEMORY)) ∧
    Factory_LockServer fLock = S_OK ∧
    ((DllGetClassObject h rclsid riid).hr = S_OK ∨
     (DllGetClassObject h rclsid riid).hr = E_NOINTERFACE ∨
     (DllGetClassObject h rclsid riid).hr = CLASS_E_CLASSNOTAVAILABLE) ∧
    DllCanUnloadNow = S_FALSE ∧
    isFailureHR S_OK = false ∧ isFailureHR S_FALSE = false ∧
    isFailureHR E_NOINTERFACE = true ∧ isFailureHR CLASS_E_NOAGGREGATION = true ∧
    isFailureHR E_OUTOFMEMORY = true ∧ isFailureHR CLASS_E_CLASSNOTAVAILABLE = true := by
  refine ⟨?_, ?_, ?_, rfl, ?_, rfl, by decide, by decide, by decide, by decide,
    by decide, by decide⟩
  · by_cases hs : riid = IID_IUnknown ∨ riid = IID_ICalculator
    · exact ⟨_, qi_supported_eq h p o hp riid hs, Or.inl rfl⟩
    · push_neg at hs
      exact ⟨_, qi_unsupported_eq h p riid hs.1 hs.2, Or.inr rfl⟩
  · unfold Factory_QueryInterface
    split
    · exact Or.inl rfl
    · exact Or.inr rfl
  · match pOut with
    | some u => exact ⟨_, rfl, Or.inr (Or.inr (Or.inl rfl))⟩
    | none =>
      match allocOK with
      | false => exact ⟨_, rfl, Or.inr (Or.inr (Or.inr rfl))⟩
      | true =>
        by_cases hs : riid = IID_IUnknown ∨ riid = IID_ICalculator
        · exact ⟨_, fci_supported_eq h riid hs, Or.inl rfl⟩
        · push_neg at hs
          exact ⟨_, fci_unsupported_eq h riid hs.1 hs.2, Or.inr (Or.inl rfl)⟩
  · unfold DllGetClassObject Factory_QueryInterface
    split
    · split
      · exact Or.inl rfl
      · exact Or.inr (Or.inl rfl)
    · exact Or.inr (Or.inr rfl)

/-- Witness for the amended C4 on a one-Calculator heap with concrete
identifiers. -/
theorem four_error_codes_witness :
    (∃ r, QueryInterface [some ⟨1⟩] 0 IID_IUnknown = some r ∧
       (r.hr = S_OK ∨ r.hr = E_NOINTERFACE)) ∧
    ((Factory_QueryInterface [some ⟨1⟩] IID_IUnknown).hr = S_OK ∨
     (Factory_QueryInterface [some ⟨1⟩] IID_IUnknown).hr = E_NOINTERFACE) ∧
    (∃ r, Factory_CreateInstance [some ⟨1⟩] true none IID_IUnknown = some r ∧
       (r.hr = S_OK ∨ r.hr = E_NOINTERFACE ∨
        r.hr = CLASS_E_NOAGGREGATION ∨ r.hr = E_OUTOFMEMORY)) ∧
    Factory_LockServer false = S_OK ∧
    ((DllGetClassObject [some ⟨1⟩] CLSID_SimpleCalculator IID_IUnknown).hr = S_OK ∨
     (DllGetClassObject [some ⟨1⟩] CLSID_SimpleCalculator IID_IUnknown).hr = E_NOINTERFACE ∨
     (DllGetClassObject [some ⟨1⟩] CLSID_SimpleCalculator IID_IUnknown).hr = CLASS_E_CLASSNOTAVAILABLE) ∧
    DllCanUnloadNow = S_FALSE ∧
    isFailureHR S_OK = false ∧ isFailureHR S_FALSE = false ∧
    isFailureHR E_NOINTERFACE = true ∧ isFailureHR CLASS_E_NOAGGREGATION = true ∧
    isFailureHR E_OUTOFMEMORY = true ∧ isFailureHR CLASS_E_CLASSNOTAVAILABLE = true :=
  four_error_codes [some ⟨1⟩] 0 ⟨1⟩ rfl IID_IUnknown CLSID_SimpleCalculator
    true none false

/-- C5: for every capability identifier other than `IID_IUnknown` and
`IID_ICalculator`, querying a Calculator writes NULL to the output, returns
`E_NOINTERFACE`, and leaves the heap — hence the instance's reference
count — unchanged. -/
theorem queryInterface_unsupported (h : Heap) (p : Nat) (riid : GUID)
    (h1 : riid ≠ IID_IUnknown) (h2 : riid ≠ IID_ICalculator) :
    QueryInterface h p riid = some ⟨h, none, E_NOINTERFACE⟩ :=
  qi_unsupported_eq h p riid h1 h2

/-- Witness for C5: querying with the class identifier, which is not a
supported capability identifier. -/
theorem queryInterface_unsupported_witness :
    QueryInterface [some ⟨1⟩] 0 CLSID_SimpleCalculator =
      some ⟨[some ⟨1⟩], none, E_NOINTERFACE⟩ :=
  queryInterface_unsupported [some ⟨1⟩] 0 CLSID_SimpleCalculator
    (by decide) (by decide)

/-- C7: `DllGetClassObject` with any class identifier other than
`CLSID_SimpleCalculator` fails with `CLASS_E_CLASSNOTAVAILABLE`, leaves the
heap unchanged (no allocation), and never writes the output; with the known
class identifier it returns exactly the factory's capability-query result
for the requested capability identifier. -/
theorem getClassObject_spec (h : Heap) (rclsid riid : GUID) :
    (rclsid ≠ CLSID_SimpleCalculator →
      DllGetClassObject h rclsid riid = ⟨h, none, CLASS_E_CLASSNOTAVAILABLE⟩) ∧
    (rclsid = CLSID_SimpleCalculator →
      DllGetClassObject h rclsid riid =
        ⟨(Factory_QueryInterface h riid).heap,
         some (Factory_QueryInterface h riid).ppv,
         (Factory_QueryInterface h riid).hr⟩) := by
  constructor
  · intro hne
    unfold DllGetClassObject
    rw [if_neg hne]
  · intro heq
    unfold DllGetClassObject
    rw [if_pos heq]

/-- Witness for C7: the unknown-class branch at `rclsid = IID_IUnknown`. -/
theorem getClassObject_spec_witness :
    DllGetClassObject [] IID_IUnknown IID_ICalculator =
      ⟨[], none, CLASS_E_CLASSNOTAVAILABLE⟩ :=
  (getClassObject_spec [] IID_IUnknown IID_ICalculator).1 (by decide)

/-- C10: for every capability identifier not supported by the Calculator,
`Factory_CreateInstance` with a null outer aggregate writes NULL to the
output, returns `E_NOINTERFACE`, and frees the freshly allocated instance
before returning: the allocated cell is freed and the number of live
instances is what it was before the call. -/
theorem createInstance_unsupported (h : Heap) (riid : GUID)
    (h1 : riid ≠ IID_IUnknown) (h2 : riid ≠ IID_ICalculator) :
    Factory_CreateInstance h true none riid =
      some ⟨h ++ [none], some none, E_NOINTERFACE⟩ ∧
    liveCount (h ++ [none]) = liveCount h :=
  ⟨fci_unsupported_eq h riid h1 h2, liveCount_append_none h⟩

/-- Witness for C10: creation requested with the class identifier, which the
Calculator does not support as a capability. -/
theorem createInstance_unsupported_witness :
    Factory_CreateInstance [] true none CLSID_SimpleCalculator =
      some ⟨[none], some none, E_NOINTERFACE⟩ ∧
    liveCount [none] = liveCount ([] : Heap) :=
  createInstance_unsupported [] CLSID_SimpleCalculator (by decide) (by decide)

end SimpleCom
